import Mathlib

/-!
Verification of the job-matching core of the `ai-job-agent` repository.

The development shallowly embeds the Python sources:
  * `src/matcher/enhanced_matcher.py` (class `EnhancedJobMatcher`): the six
    sub-score functions, the weighted combination, the per-user pipeline
    `match_user_to_jobs` and the persistence helper `_store_matches`;
  * `src/embeddings/vector_store.py` (class `FaissStore`): construction,
    `add` and `search` over an exact inner-product index.

Python floats are modelled by `ℚ`; Python `None` by `Option`; Python
truthiness (`if not x`) is modelled explicitly (`none` and the zero / empty
value are falsy).  Raising Python code is modelled with `Option`/`Except`.
The external numeric libraries are modelled by their documented semantics:
`faiss.IndexFlatIP.search` is exact top-k inner-product search (scores in
non-increasing order, padded with index `-1` when `k` exceeds the number of
stored vectors); the cosine similarity computed with `numpy` inside
`_calculate_semantic_score` is kept abstract as a field `sim` of the
matcher, since no claim depends on its numeric value.
-/

/-- Python truthiness of an optional number: `None` and `0` are falsy. -/
def truthyQ : Option ℚ → Bool
  | none => false
  | some v => v != 0

/-- Python truthiness of an optional integer: `None` and `0` are falsy. -/
def truthyZ : Option Int → Bool
  | none => false
  | some v => v != 0

/-- Python truthiness of an optional string: `None` and `""` are falsy. -/
def truthyS : Option String → Bool
  | none => false
  | some s => !s.isEmpty

/-- Python `x or d` for an optional number `x`: the default is taken when
`x` is `None` or `0`. -/
def pyOrQ (o : Option ℚ) (d : ℚ) : ℚ :=
  match o with
  | none => d
  | some v => if v = 0 then d else v

/-- Python `x or ""` for an optional string. -/
def pyOrS (o : Option String) : String := o.getD ""

/-- `pre` is a prefix of `l` (on character lists). -/
def listHasPre : List Char → List Char → Bool
  | [], _ => true
  | _ :: _, [] => false
  | a :: as, b :: bs => a == b && listHasPre as bs

/-- `needle` occurs as a contiguous run inside `hay` (character lists). -/
def listHasSub (needle : List Char) : List Char → Bool
  | [] => needle.isEmpty
  | b :: bs => listHasPre needle (b :: bs) || listHasSub needle bs

/-- Python `needle in hay` on strings: substring containment. -/
def pyInStr (needle hay : String) : Bool :=
  listHasSub needle.data hay.data

/-- Python `str.lower()` (ASCII case folding suffices for the hard-coded
skill and level vocabularies of this code base). -/
def strLower (s : String) : String := ⟨s.data.map Char.toLower⟩

/-! ## Data model (`src/models.py`) -/

/-- The fields of `Company` read by the matcher. -/
structure Company where
  company_size : Option String
  glassdoor_rating : Option ℚ
deriving Repr, DecidableEq

/-- The fields of the `Job` ORM model read by the matcher
(`src/models.py`, class `Job`).  `company` is the ORM relationship
(`None` when there is no linked company row). -/
structure Job where
  id : Nat
  title : Option String
  location : Option String
  description : Option String
  experience_level : Option String
  salary_min : Option ℚ
  salary_max : Option ℚ
  remote_option : Option String
  required_skills : List String
  preferred_skills : List String
  is_active : Bool
  company : Option Company
deriving Repr, DecidableEq

/-- The fields of the `UserProfile` ORM model read by the matcher
(`src/models.py`, class `UserProfile`). -/
structure UserProfile where
  id : Nat
  current_title : Option String
  resume_text : Option String
  skills : List String
  experience_years : Option Int
  preferred_locations : List String
  preferred_remote : Option String
  preferred_company_size : List String
  preferred_salary_min : Option ℚ
  preferred_salary_max : Option ℚ
deriving Repr, DecidableEq

/-- A row of the `matches` table (`src/models.py`, class `Match`),
restricted to the fields written by `_store_matches`. -/
structure MatchRec where
  user_id : Nat
  job_id : Nat
  overall_score : ℚ
  semantic_score : ℚ
  skill_match_score : ℚ
  experience_match_score : ℚ
  location_match_score : ℚ
  salary_match_score : ℚ
  company_match_score : ℚ
  matched_skills : List String
  missing_skills : List String
  reasons : List String
deriving Repr, DecidableEq

/-- The dictionary returned by `_calculate_match_score` (the `"job"` entry,
which merely aliases the scored job row, is dropped). -/
structure MatchData where
  job_id : Nat
  overall_score : ℚ
  semantic_score : ℚ
  skill_match_score : ℚ
  experience_match_score : ℚ
  location_match_score : ℚ
  salary_match_score : ℚ
  company_match_score : ℚ
  matched_skills : List String
  missing_skills : List String
  reasons : List String
deriving Repr, DecidableEq

/-- `config.matching_weights`: a string-keyed dictionary; a missing key makes
`dict.get(key, default)` fall back to the hard-coded default. -/
structure WeightsCfg where
  semantic_score : Option ℚ
  skill_match : Option ℚ
  experience_match : Option ℚ
  location_match : Option ℚ
  salary_match : Option ℚ
  company_match : Option ℚ
deriving Repr, DecidableEq

/-- Effective weight `self.weights.get("semantic_score", 0.3)`. -/
def wSemantic (w : WeightsCfg) : ℚ := w.semantic_score.getD (3/10)

/-- Effective weight `self.weights.get("skill_match", 0.25)`. -/
def wSkill (w : WeightsCfg) : ℚ := w.skill_match.getD (1/4)

/-- Effective weight `self.weights.get("experience_match", 0.2)`. -/
def wExperience (w : WeightsCfg) : ℚ := w.experience_match.getD (1/5)

/-- Effective weight `self.weights.get("location_match", 0.1)`. -/
def wLocation (w : WeightsCfg) : ℚ := w.location_match.getD (1/10)

/-- Effective weight `self.weights.get("salary_match", 0.1)`. -/
def wSalary (w : WeightsCfg) : ℚ := w.salary_match.getD (1/10)

/-- Effective weight `self.weights.get("company_match", 0.05)`. -/
def wCompany (w : WeightsCfg) : ℚ := w.company_match.getD (1/20)

/-- The weighted combination computed at `enhanced_matcher.py:176-183`:
a plain weighted sum of the six sub-scores, with `dict.get` defaults for the
weights.  Note: the source applies no clamping to this value. -/
def overallOf (w : WeightsCfg) (semantic skill exper loc sal comp : ℚ) : ℚ :=
  wSemantic w * semantic +
  wSkill w * skill +
  wExperience w * exper +
  wLocation w * loc +
  wSalary w * sal +
  wCompany w * comp

/-! ## Scorer (`src/matcher/enhanced_matcher.py`) -/

/-- The matcher's collaborators and configuration
(`EnhancedJobMatcher.__init__`): `enc` is the sentence-transformer encoder
(`none` models a raised exception), `sim` is the numpy cosine similarity
(kept abstract; no claim depends on its value), `weights` is
`config.matching_weights` and `minimum_match_score` is
`config.matching_thresholds.get("minimum_match_score", 0.6)`'s stored key. -/
structure Matcher where
  enc : String → Option (List ℚ)
  sim : List ℚ → List ℚ → ℚ
  weights : WeightsCfg
  minimum_match_score : Option ℚ

/-- The user text built at `enhanced_matcher.py:210`. -/
def userTextOf (u : UserProfile) : String :=
  pyOrS u.current_title ++ " " ++ String.intercalate " " u.skills ++ " " ++ pyOrS u.resume_text

/-- The job text built at `enhanced_matcher.py:213`. -/
def jobTextOf (j : Job) : String :=
  pyOrS j.title ++ " " ++ pyOrS j.description

/-- `_calculate_semantic_score`: encodes both texts and clamps the cosine
similarity to `[0,1]`; any exception in the block yields the default `0.5`. -/
def calcSemanticScore (m : Matcher) (u : UserProfile) (j : Job) : ℚ :=
  match m.enc (userTextOf u), m.enc (jobTextOf j) with
  | some ue, some je => max 0 (min 1 (m.sim ue je))
  | _, _ => 1/2

/-- The hard-coded `common_skills` set of `_extract_skills_from_text`. -/
def commonSkills : List String :=
  ["python", "java", "javascript", "react", "node.js", "sql", "aws", "docker",
   "kubernetes", "git", "linux", "mongodb", "postgresql", "redis", "elasticsearch",
   "tensorflow", "pytorch", "machine learning", "data science", "api", "rest",
   "graphql", "microservices", "agile", "scrum", "ci/cd", "jenkins", "terraform"]

/-- `_extract_skills_from_text`: the common skills occurring as substrings. -/
def extractSkillsFromText (text : String) : List String :=
  commonSkills.filter (fun sk => pyInStr sk text)

/-- The deduplicated, lowercased skill set a job contributes in
`_calculate_skill_match`: required skills, preferred skills, and skills
extracted from the description. -/
def jobSkillsOf (j : Job) : List String :=
  ((j.required_skills.map strLower) ++
   (j.preferred_skills.map strLower) ++
   (if truthyS j.description then extractSkillsFromText (strLower (pyOrS j.description))
    else [])).dedup

/-- The deduplicated, lowercased profile skill set. -/
def userSkillsOf (u : UserProfile) : List String :=
  (u.skills.map strLower).dedup

/-- `_calculate_skill_match`: returns `(score, matched_skills, missing_skills)`. -/
def calcSkillMatch (u : UserProfile) (j : Job) : ℚ × List String × List String :=
  let userSkills := userSkillsOf u
  let jobSkills := jobSkillsOf j
  if jobSkills.isEmpty then (1/2, [], [])
  else
    let matched := userSkills.filter (fun s => jobSkills.contains s)
    let missing := jobSkills.filter (fun s => !(userSkills.contains s))
    ((matched.length : ℚ) / (jobSkills.length : ℚ), matched, missing)

/-- The `level_ranges` dictionary of `_calculate_experience_match`, with the
`(0, 20)` fallback of `dict.get`. -/
def levelRanges (s : String) : ℚ × ℚ :=
  if s = "entry" then (0, 2)
  else if s = "junior" then (1, 3)
  else if s = "mid" then (3, 6)
  else if s = "senior" then (5, 10)
  else if s = "lead" then (7, 15)
  else if s = "principal" then (10, 20)
  else (0, 20)

/-- `_calculate_experience_match`.  Note the Python truthiness test
`if not user.experience_years or not job.experience_level`: a stored value
of `0` years (or an empty-string level) takes the `0.7` default branch. -/
def calcExperienceMatch (u : UserProfile) (j : Job) : ℚ :=
  if !truthyZ u.experience_years || !truthyS j.experience_level then 7/10
  else
    let r := levelRanges (pyOrS j.experience_level)
    let y : ℚ := (u.experience_years.getD 0 : Int)
    if r.1 ≤ y ∧ y ≤ r.2 then 1
    else if y < r.1 then max (3/10) (1 - (r.1 - y) * (2/10))
    else max (6/10) (1 - (y - r.2) * (1/10))

/-- `_calculate_location_match`. -/
def calcLocationMatch (u : UserProfile) (j : Job) : ℚ :=
  if u.preferred_locations.isEmpty || !truthyS j.location then 4/5
  else
    let jobLoc := strLower (pyOrS j.location)
    if u.preferred_locations.any
        (fun p => pyInStr (strLower p) jobLoc || pyInStr jobLoc (strLower p)) then 1
    else if (j.remote_option = some "remote" ∨ j.remote_option = some "hybrid") ∧
            (u.preferred_remote = some "remote" ∨ u.preferred_remote = some "hybrid" ∨
             u.preferred_remote = some "flexible") then 9/10
    else 2/5

/-- `_calculate_salary_match`.  Python truthiness again: a `None` or `0`
`preferred_salary_min`/`salary_min` takes the `0.7` default branch, and the
`or` fallbacks for the missing maxima are modelled by `pyOrQ`. -/
def calcSalaryMatch (u : UserProfile) (j : Job) : ℚ :=
  if !truthyQ u.preferred_salary_min || !truthyQ j.salary_min then 7/10
  else
    let user_min := u.preferred_salary_min.getD 0
    let user_max := pyOrQ u.preferred_salary_max (user_min * (3/2))
    let job_min := j.salary_min.getD 0
    let job_max := pyOrQ j.salary_max job_min
    if job_max ≥ user_min ∧ job_min ≤ user_max then
      let overlap := min user_max job_max - max user_min job_min
      let user_range := user_max - user_min
      if user_range > 0 then min 1 (overlap / user_range) else 1
    else if job_max < user_min then
      max (2/10) (1 - (user_min - job_max) / user_min)
    else 1

/-- `_calculate_company_match`. -/
def calcCompanyMatch (u : UserProfile) (j : Job) : ℚ :=
  match j.company with
  | none => 1/2
  | some c =>
    let s1 : ℚ := (1/2) +
      (if !u.preferred_company_size.isEmpty && truthyS c.company_size &&
          u.preferred_company_size.contains (pyOrS c.company_size)
       then 3/10 else 0)
    let s2 : ℚ := s1 +
      (if truthyQ c.glassdoor_rating
       then (2/10) * ((c.glassdoor_rating.getD 0) / 5) else 0)
    min 1 s2

/-- `_generate_match_reasons`. -/
def generateMatchReasons (semantic skill exper : ℚ) (matched : List String)
    (j : Job) : List String :=
  (if semantic > 4/5 then ["Strong semantic match with your background"]
   else if semantic > 3/5 then ["Good alignment with your experience"] else []) ++
  (if skill > 7/10 then
     ["Strong skill match: " ++ String.intercalate ", " (matched.take 3)]
   else if !matched.isEmpty then
     ["Skill overlap: " ++ String.intercalate ", " (matched.take 2)] else []) ++
  (if exper > 4/5 then ["Perfect experience level match"]
   else if exper > 3/5 then ["Good experience level fit"] else []) ++
  (if j.remote_option = some "remote" then ["Remote work available"]
   else if j.remote_option = some "hybrid" then ["Hybrid work option"] else []) ++
  (if truthyQ j.salary_min && decide ((j.salary_min.getD 0) > 100000)
   then ["Competitive salary range"] else [])

/-- `_calculate_match_score`: the six sub-scores, their weighted
combination, and the evidence lists. -/
def calcMatchScore (m : Matcher) (u : UserProfile) (j : Job) : MatchData :=
  let semantic := calcSemanticScore m u j
  let sk := calcSkillMatch u j
  let exper := calcExperienceMatch u j
  let loc := calcLocationMatch u j
  let sal := calcSalaryMatch u j
  let comp := calcCompanyMatch u j
  { job_id := j.id
    overall_score := overallOf m.weights semantic sk.1 exper loc sal comp
    semantic_score := semantic
    skill_match_score := sk.1
    experience_match_score := exper
    location_match_score := loc
    salary_match_score := sal
    company_match_score := comp
    matched_skills := sk.2.1
    missing_skills := sk.2.2
    reasons := generateMatchReasons semantic sk.1 exper sk.2.1 j }

/-! ## Match repository and pipeline -/

/-- The `Match` row built from one `match_data` dictionary inside
`_store_matches`. -/
def recOfData (uid : Nat) (d : MatchData) : MatchRec :=
  { user_id := uid
    job_id := d.job_id
    overall_score := d.overall_score
    semantic_score := d.semantic_score
    skill_match_score := d.skill_match_score
    experience_match_score := d.experience_match_score
    location_match_score := d.location_match_score
    salary_match_score := d.salary_match_score
    company_match_score := d.company_match_score
    matched_skills := d.matched_skills
    missing_skills := d.missing_skills
    reasons := d.reasons }

/-- `_store_matches`: delete every row of the `matches` table belonging to
`uid`, then insert one row per entry of `ms`, in one transaction (a single
`db.commit()` covers both). -/
def storeMatches (uid : Nat) (ms : List MatchData) (tbl : List MatchRec) :
    List MatchRec :=
  tbl.filter (fun r => r.user_id != uid) ++ ms.map (recOfData uid)

/-- The stores read and written by `match_user_to_jobs`: the `user_profiles`
and `jobs` tables (read-only here) and the `matches` table (`matches` is a
reserved word in Lean, hence the field name `matchesTbl`). -/
structure DB where
  profiles : List UserProfile
  jobs : List Job
  matchesTbl : List MatchRec

/-- The descending-`overall_score` order of Python's
`matches.sort(key=lambda x: x["overall_score"], reverse=True)`. -/
def byOverallDesc (a b : MatchData) : Prop := a.overall_score ≥ b.overall_score

instance : DecidableRel byOverallDesc :=
  fun a b => inferInstanceAs (Decidable (b.overall_score ≤ a.overall_score))

/-- Python's stable descending sort of the match dictionaries. -/
def sortByOverallDesc (l : List MatchData) : List MatchData :=
  List.insertionSort byOverallDesc l

/-- The scoring part of `match_user_to_jobs` for a found user: score every
active job, keep the records at or above
`thresholds.get("minimum_match_score", 0.6)`, sort by descending overall
score, truncate to the top `top_k`. -/
def pipelineTop (m : Matcher) (user : UserProfile) (jobs : List Job)
    (top_k : Nat) : List MatchData :=
  let cand := ((jobs.filter (fun j => j.is_active)).map
      (calcMatchScore m user)).filter
    (fun md => decide (md.overall_score ≥ m.minimum_match_score.getD (3/5)))
  (sortByOverallDesc cand).take top_k

/-- `match_user_to_jobs`: look the user up; compute the top matches via
`pipelineTop`; store them via `_store_matches`; return them.  A missing
user returns `[]` with the stores untouched. -/
def matchUserToJobs (m : Matcher) (db : DB) (user_id : Nat) (top_k : Nat) :
    List MatchData × DB :=
  match db.profiles.find? (fun p => p.id == user_id) with
  | none => ([], db)
  | some user =>
    let top := pipelineTop m user db.jobs top_k
    (top, { db with matchesTbl := storeMatches user_id top db.matchesTbl })

/-! ## Vector store (`src/embeddings/vector_store.py`) -/

/-- The in-memory state of `FaissStore`: the rows of the `IndexFlatIP`
index and the parallel `ids` list. -/
structure FaissStore where
  d : Nat
  vectors : List (List ℚ)
  ids : List Nat
deriving Repr, DecidableEq

/-- Inner product of two vectors. -/
def dotQ (u v : List ℚ) : ℚ := (List.zipWith (· * ·) u v).sum

/-- `FaissStore.add`: append the vectors to the index and extend `ids`
(the `_save` call touches only the persisted copies). -/
def FaissStore.add (s : FaissStore) (vecs : List (List ℚ)) (ids : List Nat) :
    FaissStore :=
  { s with vectors := s.vectors ++ vecs, ids := s.ids ++ ids }

/-- A freshly constructed store (`faiss.IndexFlatIP(d)` with empty `ids`). -/
def emptyStore (d : Nat) : FaissStore := ⟨d, [], []⟩

/-- The store obtained by a sequence of `add` calls starting from a fresh
store; each operation carries the vectors and the ids of one call. -/
def buildStore (d : Nat) (ops : List (List (List ℚ) × List Nat)) : FaissStore :=
  ops.foldl (fun s op => s.add op.1 op.2) (emptyStore d)

/-- The `(score, row-index)` pairs of all stored vectors against a query. -/
def scorePairs (vectors : List (List ℚ)) (q : List ℚ) : List (ℚ × Int) :=
  vectors.enum.map (fun p => (dotQ q p.2, (p.1 : Int)))

/-- The descending-score order faiss returns hits in. -/
def byScoreDesc (a b : ℚ × Int) : Prop := a.1 ≥ b.1

instance : DecidableRel byScoreDesc :=
  fun a b => inferInstanceAs (Decidable (b.1 ≤ a.1))

instance : IsTotal (ℚ × Int) byScoreDesc := ⟨fun a b => le_total b.1 a.1⟩

instance : IsTrans (ℚ × Int) byScoreDesc := ⟨fun _ _ _ h1 h2 => le_trans h2 h1⟩

/-- Stable sort of the scored rows by descending score. -/
def sortScoresDesc (l : List (ℚ × Int)) : List (ℚ × Int) :=
  List.insertionSort byScoreDesc l

/-- `faiss.IndexFlatIP.search` on one query vector, modelled from the
library's documented semantics: exact inner-product scores sorted in
non-increasing order, truncated to `k` and padded with row index `-1`
when fewer than `k` vectors are stored. -/
def faissTopK (vectors : List (List ℚ)) (q : List ℚ) (k : Nat) :
    List (ℚ × Int) :=
  let taken := (sortScoresDesc (scorePairs vectors q)).take k
  taken ++ List.replicate (k - taken.length) (0, -1)

/-- The body of the result-row loop of `FaissStore.search`: a faiss hit with
a row index that is negative or out of range for `ids` is skipped
(`if idx < 0 or idx >= len(self.ids): continue`); otherwise the pair
`{"id": self.ids[idx], "score": dist}` is kept. -/
def searchRow (ids : List Nat) (p : ℚ × Int) : Option (Nat × ℚ) :=
  if p.2 < 0 then none
  else match ids[p.2.toNat]? with
    | none => none
    | some i => some (i, p.1)

/-- `FaissStore.search` on one query vector (the Python method maps this row
construction over a batch): an empty index short-circuits to an empty row;
otherwise the faiss hits are filtered through `searchRow`. -/
def FaissStore.search (s : FaissStore) (q : List ℚ) (top_k : Nat) :
    List (Nat × ℚ) :=
  if s.vectors.length = 0 then []
  else (faissTopK s.vectors q top_k).filterMap (searchRow s.ids)

/-- The error the specification names `IndexCorruptionError`; no such type
exists anywhere in the source. -/
structure IndexCorruptionError where
  msg : String
deriving Repr, DecidableEq

/-- The state of one persisted file as seen by `FaissStore.__init__`:
missing, present but unreadable (reading raises), or readable. -/
inductive FileState (α : Type) where
  | absent
  | corrupt
  | good (val : α)
deriving Repr, DecidableEq

/-- `FaissStore.__init__`: when both persisted files exist, it tries to read
them and on any exception silently falls back to a fresh empty index; when
either file is missing it starts fresh.  The `Except` result type records
that no corruption error is ever signalled: every branch returns `.ok`. -/
def initFaissStore (d : Nat) (fIndex : FileState (List (List ℚ)))
    (fIds : FileState (List Nat)) : Except IndexCorruptionError FaissStore :=
  match fIndex, fIds with
  | .good vs, .good ids => .ok ⟨d, vs, ids⟩
  | .absent, _ => .ok (emptyStore d)
  | _, .absent => .ok (emptyStore d)
  | _, _ => .ok (emptyStore d)

/-! ## Concrete instances used in the scenario evaluations -/

/-- A profile with every optional field unset. -/
def emptyProfile : UserProfile :=
  { id := 1, current_title := none, resume_text := none, skills := [],
    experience_years := none, preferred_locations := [],
    preferred_remote := none, preferred_company_size := [],
    preferred_salary_min := none, preferred_salary_max := none }

/-- An active job with every optional field unset. -/
def emptyJob : Job :=
  { id := 10, title := none, location := none, description := none,
    experience_level := none, salary_min := none, salary_max := none,
    remote_option := none, required_skills := [], preferred_skills := [],
    is_active := true, company := none }

/-- The profile of the skill-match scenario: skills `{python, react}`. -/
def uSkillScen : UserProfile := { emptyProfile with skills := ["python", "react"] }

/-- The job of the skill-match scenario: required skills `{python, sql}`,
no preferred skills, no description. -/
def jSkillScen : Job := { emptyJob with required_skills := ["python", "sql"] }

/-- The candidate of the salary scenario: desired range `[100000, 130000]`. -/
def uSalScen : UserProfile :=
  { emptyProfile with preferred_salary_min := some 100000,
                      preferred_salary_max := some 130000 }

/-- The job of the salary scenario: offered range `[120000, 150000]`. -/
def jSalScen : Job :=
  { emptyJob with salary_min := some 120000, salary_max := some 150000 }

/-- A profile with a stored experience of exactly `0` years. -/
def uExpZero : UserProfile := { emptyProfile with experience_years := some 0 }

/-- An entry-level job (numeric range `(0, 2)`). -/
def jExpEntry : Job := { emptyJob with experience_level := some "entry" }

/-- A profile with 4 years of experience. -/
def uExpMid : UserProfile := { emptyProfile with experience_years := some 4 }

/-- A mid-level job (numeric range `(3, 6)`). -/
def jExpMid : Job := { emptyJob with experience_level := some "mid" }

/-- A weight configuration that sets every key to `1`. -/
def wAllOne : WeightsCfg :=
  { semantic_score := some 1, skill_match := some 1, experience_match := some 1,
    location_match := some 1, salary_match := some 1, company_match := some 1 }

/-- The empty weight configuration: every `dict.get` takes its default. -/
def wNone : WeightsCfg :=
  { semantic_score := none, skill_match := none, experience_match := none,
    location_match := none, salary_match := none, company_match := none }

/-- A match dictionary with vacuous content for job `7`. -/
def mdJob7 : MatchData :=
  { job_id := 7, overall_score := 1, semantic_score := 1, skill_match_score := 1,
    experience_match_score := 1, location_match_score := 1, salary_match_score := 1,
    company_match_score := 1, matched_skills := [], missing_skills := [],
    reasons := [] }

/-- A matcher whose encoder raises on every input (`enc` always `none`),
with empty weight and threshold configuration. -/
def mFail : Matcher :=
  { enc := fun _ => none, sim := fun _ _ => 0, weights := wNone,
    minimum_match_score := none }

/-- A persisted match row of user `1` for job `99`. -/
def rec99 : MatchRec :=
  { user_id := 1, job_id := 99, overall_score := 1, semantic_score := 1,
    skill_match_score := 1, experience_match_score := 1,
    location_match_score := 1, salary_match_score := 1,
    company_match_score := 1, matched_skills := [], missing_skills := [],
    reasons := [] }

/-- A database holding user `1`, no jobs, and one stored match for the
user (job `99`). -/
def dbPrior : DB := { profiles := [emptyProfile], jobs := [], matchesTbl := [rec99] }

/-- A database with no user profiles but a stored match row. -/
def dbNoUser : DB := { profiles := [], jobs := [], matchesTbl := [rec99] }

/-! ## Shared helper lemmas -/

/-- Counting occurrences of a `job_id` in a list of match dictionaries whose
`job_id` projections are pairwise distinct. -/
theorem countP_jobId_of_nodup (ms : List MatchData) (j : Nat)
    (hnd : (ms.map (fun d => d.job_id)).Nodup) :
    ms.countP (fun d => d.job_id == j) =
      if j ∈ ms.map (fun d => d.job_id) then 1 else 0 := by
  induction ms with
  | nil => simp
  | cons a l ih =>
    simp only [List.map_cons, List.nodup_cons] at hnd
    rw [List.countP_cons, ih hnd.2]
    by_cases hj : a.job_id = j
    · have h0 : j ∉ l.map (fun d => d.job_id) := hj ▸ hnd.1
      simp [h0, hj, List.mem_cons]
    · have hj2 : ¬ j = a.job_id := fun h => hj h.symm
      simp [hj, hj2, List.mem_cons]

/-! ## Claim C1 -/

/-- Claim C1 (counterexample): the combination step applies no clamping.
With every weight set to `1` (all non-negative) and all six sub-scores
equal to `1` (inside `[0,1]`), the overall score is `6`, outside `[0,1]`. -/
theorem c1_overall_unclamped_cex :
    (0 ≤ wSemantic wAllOne ∧ 0 ≤ wSkill wAllOne ∧ 0 ≤ wExperience wAllOne ∧
     0 ≤ wLocation wAllOne ∧ 0 ≤ wSalary wAllOne ∧ 0 ≤ wCompany wAllOne) ∧
    overallOf wAllOne 1 1 1 1 1 1 = 6 ∧
    ¬ overallOf wAllOne 1 1 1 1 1 1 ≤ 1 := by
  norm_num [overallOf, wSemantic, wSkill, wExperience, wLocation, wSalary,
    wCompany, wAllOne]

/-- Claim C1 (amended): `overall_score` is the plain weighted sum of the six
sub-scores with no clamping; it lies in `[0,1]` whenever the six effective
weights are non-negative, the sub-scores are in `[0,1]`, and the weights sum
to at most `1` (the hard-coded defaults sum to exactly `1`). -/
theorem c1_overall_score_bounded (w : WeightsCfg) (s1 s2 s3 s4 s5 s6 : ℚ)
    (hw1 : 0 ≤ wSemantic w) (hw2 : 0 ≤ wSkill w) (hw3 : 0 ≤ wExperience w)
    (hw4 : 0 ≤ wLocation w) (hw5 : 0 ≤ wSalary w) (hw6 : 0 ≤ wCompany w)
    (hsum : wSemantic w + wSkill w + wExperience w + wLocation w +
      wSalary w + wCompany w ≤ 1)
    (hs1 : 0 ≤ s1) (hs1' : s1 ≤ 1) (hs2 : 0 ≤ s2) (hs2' : s2 ≤ 1)
    (hs3 : 0 ≤ s3) (hs3' : s3 ≤ 1) (hs4 : 0 ≤ s4) (hs4' : s4 ≤ 1)
    (hs5 : 0 ≤ s5) (hs5' : s5 ≤ 1) (hs6 : 0 ≤ s6) (hs6' : s6 ≤ 1) :
    0 ≤ overallOf w s1 s2 s3 s4 s5 s6 ∧ overallOf w s1 s2 s3 s4 s5 s6 ≤ 1 := by
  unfold overallOf
  constructor
  · have := mul_nonneg hw1 hs1
    have := mul_nonneg hw2 hs2
    have := mul_nonneg hw3 hs3
    have := mul_nonneg hw4 hs4
    have := mul_nonneg hw5 hs5
    have := mul_nonneg hw6 hs6
    linarith
  · have h1 := mul_le_of_le_one_right hw1 hs1'
    have h2 := mul_le_of_le_one_right hw2 hs2'
    have h3 := mul_le_of_le_one_right hw3 hs3'
    have h4 := mul_le_of_le_one_right hw4 hs4'
    have h5 := mul_le_of_le_one_right hw5 hs5'
    have h6 := mul_le_of_le_one_right hw6 hs6'
    linarith

/-- Claim C1 (witness): the default weight configuration sums to exactly
`1`, and with all six sub-scores at `1/2` the overall score is in `[0,1]`. -/
theorem c1_overall_score_bounded_witness :
    (0 ≤ wSemantic wNone ∧ 0 ≤ wSkill wNone ∧ 0 ≤ wExperience wNone ∧
     0 ≤ wLocation wNone ∧ 0 ≤ wSalary wNone ∧ 0 ≤ wCompany wNone ∧
     wSemantic wNone + wSkill wNone + wExperience wNone + wLocation wNone +
       wSalary wNone + wCompany wNone ≤ 1) ∧
    (0 ≤ overallOf wNone (1/2) (1/2) (1/2) (1/2) (1/2) (1/2) ∧
     overallOf wNone (1/2) (1/2) (1/2) (1/2) (1/2) (1/2) ≤ 1) := by
  refine ⟨by norm_num [wSemantic, wSkill, wExperience, wLocation, wSalary,
    wCompany, wNone], ?_⟩
  exact c1_overall_score_bounded wNone (1/2) (1/2) (1/2) (1/2) (1/2) (1/2)
    (by norm_num [wSemantic, wNone]) (by norm_num [wSkill, wNone])
    (by norm_num [wExperience, wNone]) (by norm_num [wLocation, wNone])
    (by norm_num [wSalary, wNone]) (by norm_num [wCompany, wNone])
    (by norm_num [wSemantic, wSkill, wExperience, wLocation, wSalary,
      wCompany, wNone])
    (by norm_num) (by norm_num) (by norm_num) (by norm_num) (by norm_num)
    (by norm_num) (by norm_num) (by norm_num) (by norm_num) (by norm_num)
    (by norm_num) (by norm_num)

/-! ## Claim C2 -/

/-- Claim C2 (counterexample): `_store_matches` inserts one row per entry of
the list it is given.  A list holding the same record twice produces two
rows for the same `(user_id, job_id)` pair, not exactly one. -/
theorem c2_replace_matches_unique_cex :
    7 ∈ [mdJob7, mdJob7].map (fun d => d.job_id) ∧
    (storeMatches 1 [mdJob7, mdJob7] []).countP
      (fun r => r.user_id == 1 && r.job_id == 7) = 2 := by
  constructor
  · decide
  · decide

/-- Claim C2 (amended): after `_store_matches(user_id, records)` with
pairwise-distinct `job_id`s in `records` (as every pipeline call guarantees,
scoring each job row once), the table holds exactly one row per
`(user_id, job_id)` with `job_id` in the inserted set and zero rows for that
user with any other `job_id`. -/
theorem c2_replace_matches_unique (uid : Nat) (ms : List MatchData)
    (tbl : List MatchRec) (j : Nat)
    (hnd : (ms.map (fun d => d.job_id)).Nodup) :
    (storeMatches uid ms tbl).countP
        (fun r => r.user_id == uid && r.job_id == j) =
      if j ∈ ms.map (fun d => d.job_id) then 1 else 0 := by
  unfold storeMatches
  rw [List.countP_append]
  have h1 : (tbl.filter (fun r => r.user_id != uid)).countP
      (fun r => r.user_id == uid && r.job_id == j) = 0 := by
    rw [List.countP_eq_zero]
    intro r hr
    have h2 := (List.mem_filter.1 hr).2
    simp only [bne_iff_ne, ne_eq] at h2
    simp [h2]
  have h3 : ((fun r : MatchRec => r.user_id == uid && r.job_id == j) ∘
      recOfData uid) = fun d : MatchData => d.job_id == j := by
    funext d
    simp [recOfData]
  rw [h1, List.countP_map, h3, countP_jobId_of_nodup ms j hnd]
  simp

/-- Claim C2 (witness): inserting the single record for job `7` over a table
holding the user's old row for job `99` leaves exactly one row for job `7`
and zero rows for job `99`. -/
theorem c2_replace_matches_unique_witness :
    ([mdJob7].map (fun d => d.job_id)).Nodup ∧
    (storeMatches 1 [mdJob7] [rec99]).countP
      (fun r => r.user_id == 1 && r.job_id == 7) = 1 ∧
    (storeMatches 1 [mdJob7] [rec99]).countP
      (fun r => r.user_id == 1 && r.job_id == 99) = 0 := by
  refine ⟨by decide, ?_, ?_⟩
  · rw [c2_replace_matches_unique 1 [mdJob7] [rec99] 7 (by decide)]
    decide
  · rw [c2_replace_matches_unique 1 [mdJob7] [rec99] 99 (by decide)]
    decide

/-! ## Claim C7 -/

/-- Claim C7 (counterexample): loading with both persisted files present but
unreadable does not signal any error: `__init__` silently returns a fresh
empty store. -/
theorem c7_corrupt_load_cex :
    (initFaissStore 384 FileState.corrupt FileState.corrupt).isOk = true ∧
    initFaissStore 384 FileState.corrupt FileState.corrupt =
      Except.ok (emptyStore 384) := by
  exact ⟨rfl, rfl⟩

/-- Claim C7 (amended): no `IndexCorruptionError` type exists in the source;
on any load the constructor succeeds, and when either persisted file is
unreadable it silently falls back to a fresh empty index and id list. -/
theorem c7_corrupt_load_silent_fresh (d : Nat)
    (fIndex : FileState (List (List ℚ))) (fIds : FileState (List Nat)) :
    (initFaissStore d fIndex fIds).isOk = true ∧
    (fIndex = FileState.corrupt ∨ fIds = FileState.corrupt →
      initFaissStore d fIndex fIds = Except.ok (emptyStore d)) := by
  constructor
  · cases fIndex <;> cases fIds <;> rfl
  · rintro (h | h) <;> subst h
    · cases fIds <;> rfl
    · cases fIndex <;> rfl

/-- Claim C7 (witness): a corrupt index file next to a readable id file
yields the fresh empty store, with no error signalled. -/
theorem c7_corrupt_load_silent_fresh_witness :
    (initFaissStore 2 FileState.corrupt (FileState.good [3])).isOk = true ∧
    initFaissStore 2 FileState.corrupt (FileState.good [3]) =
      Except.ok (emptyStore 2) :=
  ⟨(c7_corrupt_load_silent_fresh 2 FileState.corrupt (FileState.good [3])).1,
   (c7_corrupt_load_silent_fresh 2 FileState.corrupt (FileState.good [3])).2
     (Or.inl rfl)⟩

/-! ## Claim C10 -/

/-- Claim C10: when no user profile carries the requested id,
`match_user_to_jobs` returns the empty list and leaves the whole database —
in particular the `matches` table — untouched. -/
theorem c10_missing_user_no_effect (m : Matcher) (db : DB) (uid k : Nat)
    (h : db.profiles.find? (fun p => p.id == uid) = none) :
    matchUserToJobs m db uid k = ([], db) := by
  unfold matchUserToJobs
  rw [h]

/-- Claim C10 (witness): on a database with no profiles and one stored
match row, the call returns `[]` and the database is unchanged. -/
theorem c10_missing_user_no_effect_witness :
    dbNoUser.profiles.find? (fun p => p.id == 5) = none ∧
    matchUserToJobs mFail dbNoUser 5 50 = ([], dbNoUser) :=
  ⟨rfl, c10_missing_user_no_effect mFail dbNoUser 5 50 rfl⟩

/-! ## Claim C5 -/

/-- Claim C5: `_calculate_salary_match` — the `0.7` default when either
side's salary floor is missing (or zero, which Python truthiness treats as
missing); the capped overlap ratio when the ranges overlap; `1.0` when the
job's floor exceeds the candidate's ceiling; and the `0.2`-floored linear
decay when the job's ceiling falls below the candidate's floor.  `umax` and
`jmax` are the code's `or`-fallbacks for missing maxima. -/
theorem c5_salary_match (u : UserProfile) (j : Job) :
    (u.preferred_salary_min = none ∨ u.preferred_salary_min = some 0 ∨
     j.salary_min = none ∨ j.salary_min = some 0 →
      calcSalaryMatch u j = 7/10) ∧
    (∀ umin jmin umax jmax : ℚ,
      u.preferred_salary_min = some umin → 0 < umin →
      j.salary_min = some jmin → 0 < jmin →
      umax = pyOrQ u.preferred_salary_max (umin * (3/2)) →
      jmax = pyOrQ j.salary_max jmin →
      ((umin ≤ jmax → jmin ≤ umax → umin < umax →
          calcSalaryMatch u j =
            min 1 ((min umax jmax - max umin jmin) / (umax - umin))) ∧
       (umin ≤ umax → jmin ≤ jmax → umax < jmin → calcSalaryMatch u j = 1) ∧
       (jmax < umin →
          calcSalaryMatch u j = max (2/10) (1 - (umin - jmax) / umin)))) := by
  constructor
  · rintro (h | h | h | h) <;>
      simp [calcSalaryMatch, h, truthyQ]
  · intro umin jmin umax jmax hu hup hj hjp humax hjmax
    have hu0 : (umin != 0) = true := by simp [ne_of_gt hup]
    have hj0 : (jmin != 0) = true := by simp [ne_of_gt hjp]
    have hform : calcSalaryMatch u j =
        (if jmax ≥ umin ∧ jmin ≤ umax then
          (if umax - umin > 0 then
            min 1 ((min umax jmax - max umin jmin) / (umax - umin)) else 1)
         else if jmax < umin then
           max (2/10) (1 - (umin - jmax) / umin)
         else 1) := by
      unfold calcSalaryMatch
      rw [hu, hj]
      simp only [truthyQ, hu0, hj0, Bool.not_true, Bool.or_self,
        Bool.false_eq_true, if_false, Option.getD_some, ← humax, ← hjmax]
    refine ⟨fun h1 h2 h3 => ?_, fun h1 h2 h3 => ?_, fun h1 => ?_⟩
    · rw [hform, if_pos ⟨h1, h2⟩, if_pos (by linarith)]
    · rw [hform, if_neg (fun hc => absurd hc.2 (not_le.2 h3)),
        if_neg (by intro hc; linarith)]
    · rw [hform, if_neg (fun hc => absurd hc.1 (not_le.2 h1)), if_pos h1]

/-- Claim C5 (witness): the scenario — job range `[120000, 150000]` against
candidate range `[100000, 130000]` gives overlap `10000` over range width
`30000`, a salary match score of exactly `1/3`. -/
theorem c5_salary_match_witness :
    uSalScen.preferred_salary_min = some 100000 ∧
    jSalScen.salary_min = some 120000 ∧
    calcSalaryMatch uSalScen jSalScen = 1/3 := by
  refine ⟨rfl, rfl, ?_⟩
  have h := ((c5_salary_match uSalScen jSalScen).2 100000 120000 130000 150000
    rfl (by norm_num) rfl (by norm_num)
    (by norm_num [pyOrQ, uSalScen, emptyProfile])
    (by norm_num [pyOrQ, jSalScen, emptyJob])).1
    (by norm_num) (by norm_num) (by norm_num)
  rw [h]
  norm_num

/-! ## Claim C6 -/

/-- Claim C6 (counterexample): a candidate with a stored experience of `0`
years applying to an entry-level job (numeric range `(0, 2)`, which contains
`0`) does not get the in-range score `1.0`: Python's `if not
user.experience_years` treats `0` as missing and returns the `0.7` default. -/
theorem c6_experience_match_cex :
    uExpZero.experience_years = some 0 ∧
    jExpEntry.experience_level = some "entry" ∧
    (levelRanges "entry").1 ≤ (0:ℚ) ∧ (0:ℚ) ≤ (levelRanges "entry").2 ∧
    calcExperienceMatch uExpZero jExpEntry = 7/10 ∧ (7/10 : ℚ) ≠ 1 := by
  refine ⟨rfl, rfl, by norm_num [levelRanges], by norm_num [levelRanges],
    ?_, by norm_num⟩
  norm_num [calcExperienceMatch, truthyZ, uExpZero, jExpEntry, emptyProfile,
    emptyJob]

/-- The piecewise form of `_calculate_experience_match` once both truthiness
guards pass and the level's range is well-formed. -/
theorem calcExperienceMatch_cases (u : UserProfile) (j : Job) (y : Int)
    (lvl : String) (hy : u.experience_years = some y) (hy0 : y ≠ 0)
    (hl : j.experience_level = some lvl)
    (hlvl : truthyS (some lvl) = true)
    (hlohi : (levelRanges lvl).1 ≤ (levelRanges lvl).2) :
    ((levelRanges lvl).1 ≤ (y:ℚ) ∧ (y:ℚ) ≤ (levelRanges lvl).2 →
       calcExperienceMatch u j = 1) ∧
    ((y:ℚ) < (levelRanges lvl).1 →
       calcExperienceMatch u j =
         max (3/10) (1 - ((levelRanges lvl).1 - (y:ℚ)) * (2/10))) ∧
    ((levelRanges lvl).2 < (y:ℚ) →
       calcExperienceMatch u j =
         max (6/10) (1 - ((y:ℚ) - (levelRanges lvl).2) * (1/10))) := by
  have hy0' : (y != 0) = true := by simp [hy0]
  have hform : calcExperienceMatch u j =
      (if (levelRanges lvl).1 ≤ (y:ℚ) ∧ (y:ℚ) ≤ (levelRanges lvl).2 then 1
       else if (y:ℚ) < (levelRanges lvl).1 then
         max (3/10) (1 - ((levelRanges lvl).1 - (y:ℚ)) * (2/10))
       else max (6/10) (1 - ((y:ℚ) - (levelRanges lvl).2) * (1/10))) := by
    unfold calcExperienceMatch
    rw [hy, hl]
    simp only [truthyZ, hy0', hlvl, Bool.not_true, Bool.or_self,
      Bool.false_eq_true, if_false, Option.getD_some, pyOrS]
  refine ⟨fun h => ?_, fun h => ?_, fun h => ?_⟩
  · rw [hform, if_pos h]
  · rw [hform, if_neg (fun hc => absurd hc.1 (not_le.2 h)), if_pos h]
  · rw [hform, if_neg (fun hc => absurd hc.2 (not_le.2 h)),
      if_neg (by intro hc; linarith)]

/-- Claim C6 (amended): for a profile with known *non-zero* experience years
(a stored `0` is treated as missing by Python truthiness and yields the
`0.7` default) and a job with a recognized experience level, the score is
`1.0` inside the level's numeric range, decays linearly at `0.2` per year of
shortfall floored at `0.3` below the range, and decays linearly at `0.1` per
year of excess floored at `0.6` above the range. -/
theorem c6_experience_match_formula (u : UserProfile) (j : Job) (y : Int)
    (lvl : String) (hy : u.experience_years = some y) (hy0 : y ≠ 0)
    (hl : j.experience_level = some lvl)
    (hrec : lvl ∈ ["entry", "junior", "mid", "senior", "lead", "principal"]) :
    ((levelRanges lvl).1 ≤ (y:ℚ) ∧ (y:ℚ) ≤ (levelRanges lvl).2 →
       calcExperienceMatch u j = 1) ∧
    ((y:ℚ) < (levelRanges lvl).1 →
       calcExperienceMatch u j =
         max (3/10) (1 - ((levelRanges lvl).1 - (y:ℚ)) * (2/10))) ∧
    ((levelRanges lvl).2 < (y:ℚ) →
       calcExperienceMatch u j =
         max (6/10) (1 - ((y:ℚ) - (levelRanges lvl).2) * (1/10))) := by
  have hcase : lvl = "entry" ∨ lvl = "junior" ∨ lvl = "mid" ∨
      lvl = "senior" ∨ lvl = "lead" ∨ lvl = "principal" := by
    simpa using hrec
  have hlvl : truthyS (some lvl) = true := by
    rcases hcase with rfl | rfl | rfl | rfl | rfl | rfl <;> decide
  have hlohi : (levelRanges lvl).1 ≤ (levelRanges lvl).2 := by
    rcases hcase with rfl | rfl | rfl | rfl | rfl | rfl <;> decide
  exact calcExperienceMatch_cases u j y lvl hy hy0 hl hlvl hlohi

/-- Claim C6 (witness): 4 years of experience against a mid-level job
(range `(3, 6)`) scores `1.0`. -/
theorem c6_experience_match_formula_witness :
    uExpMid.experience_years = some 4 ∧ (4:Int) ≠ 0 ∧
    jExpMid.experience_level = some "mid" ∧
    "mid" ∈ ["entry", "junior", "mid", "senior", "lead", "principal"] ∧
    (levelRanges "mid").1 ≤ ((4:Int):ℚ) ∧
    ((4:Int):ℚ) ≤ (levelRanges "mid").2 ∧
    calcExperienceMatch uExpMid jExpMid = 1 := by
  have hmid : levelRanges "mid" = (3, 6) := by decide
  refine ⟨rfl, by norm_num, rfl, by decide, by rw [hmid]; norm_num,
    by rw [hmid]; norm_num, ?_⟩
  exact (c6_experience_match_formula uExpMid jExpMid 4 "mid" rfl
    (by norm_num) rfl (by decide)).1
    ⟨by rw [hmid]; norm_num, by rw [hmid]; norm_num⟩

/-! ## Claim C4 -/

/-- Claim C4: when the job contributes no skills, `_calculate_skill_match`
returns the neutral `(0.5, [], [])`; otherwise the score is the cardinality
of the intersection of the profile's and the job's (lowercased,
deduplicated) skill sets over the cardinality of the job's skill set, with
`matched_skills` enumerating the intersection and `missing_skills` the
job-side difference. -/
theorem c4_skill_match (u : UserProfile) (j : Job) :
    (jobSkillsOf j = [] → calcSkillMatch u j = (1/2, [], [])) ∧
    (jobSkillsOf j ≠ [] →
      (calcSkillMatch u j).1 =
        (((userSkillsOf u).toFinset ∩ (jobSkillsOf j).toFinset).card : ℚ) /
          (((jobSkillsOf j).toFinset.card : ℚ)) ∧
      (calcSkillMatch u j).2.1.toFinset =
        (userSkillsOf u).toFinset ∩ (jobSkillsOf j).toFinset ∧
      (calcSkillMatch u j).2.2.toFinset =
        (jobSkillsOf j).toFinset \ (userSkillsOf u).toFinset) := by
  have hnodup_user : (userSkillsOf u).Nodup := List.nodup_dedup _
  have hnodup_job : (jobSkillsOf j).Nodup := List.nodup_dedup _
  constructor
  · intro h
    simp [calcSkillMatch, h]
  · intro h
    have hne : (jobSkillsOf j).isEmpty = false := by
      simpa [List.isEmpty_iff] using h
    have hmatched : ((userSkillsOf u).filter
        (fun s => (jobSkillsOf j).contains s)).toFinset =
        (userSkillsOf u).toFinset ∩ (jobSkillsOf j).toFinset := by
      rw [List.toFinset_filter]
      rw [show (Finset.filter (fun s => (jobSkillsOf j).contains s = true)
          (userSkillsOf u).toFinset) =
          Finset.filter (fun s => s ∈ (jobSkillsOf j).toFinset)
            (userSkillsOf u).toFinset from
        Finset.filter_congr (fun x _ => by
          simp [List.elem_iff, List.mem_toFinset])]
      exact Finset.filter_mem_eq_inter
    have hmissing : ((jobSkillsOf j).filter
        (fun s => !((userSkillsOf u).contains s))).toFinset =
        (jobSkillsOf j).toFinset \ (userSkillsOf u).toFinset := by
      rw [List.toFinset_filter, Finset.sdiff_eq_filter]
      exact Finset.filter_congr (fun x _ => by
        simp [List.elem_iff, List.mem_toFinset])
    have hlen : ((userSkillsOf u).filter
        (fun s => (jobSkillsOf j).contains s)).length =
        ((userSkillsOf u).toFinset ∩ (jobSkillsOf j).toFinset).card := by
      rw [← hmatched]
      exact (List.toFinset_card_of_nodup (hnodup_user.filter _)).symm
    have hjlen : (jobSkillsOf j).length = (jobSkillsOf j).toFinset.card :=
      (List.toFinset_card_of_nodup hnodup_job).symm
    refine ⟨?_, ?_, ?_⟩
    · simp only [calcSkillMatch, hne, Bool.false_eq_true, if_false]
      rw [hlen, hjlen]
    · simp only [calcSkillMatch, hne, Bool.false_eq_true, if_false]
      exact hmatched
    · simp only [calcSkillMatch, hne, Bool.false_eq_true, if_false]
      exact hmissing

/-- Claim C4 (witness): the scenario — profile skills `{python, react}`,
job required skills `{python, sql}`, no preferred skills, no description —
yields score `1/2`, `matched_skills = [python]`, `missing_skills = [sql]`. -/
theorem c4_skill_match_witness :
    jobSkillsOf jSkillScen ≠ [] ∧
    (calcSkillMatch uSkillScen jSkillScen).1 =
      (((userSkillsOf uSkillScen).toFinset ∩
        (jobSkillsOf jSkillScen).toFinset).card : ℚ) /
        (((jobSkillsOf jSkillScen).toFinset.card : ℚ)) ∧
    calcSkillMatch uSkillScen jSkillScen = (1/2, ["python"], ["sql"]) := by
  refine ⟨by decide, ((c4_skill_match uSkillScen jSkillScen).2 (by decide)).1, ?_⟩
  have h1 : jobSkillsOf jSkillScen = ["python", "sql"] := by decide
  have h2 : userSkillsOf uSkillScen = ["python", "react"] := by decide
  simp only [calcSkillMatch, h1, h2]
  norm_num +decide

/-! ## Claim C8 -/

/-- Every record produced by `pipelineTop` is the score of one of the given
jobs for the given user. -/
theorem mem_pipelineTop (m : Matcher) (user : UserProfile) (jobs : List Job)
    (k : Nat) (r : MatchData) (hr : r ∈ pipelineTop m user jobs k) :
    ∃ j ∈ jobs, r = calcMatchScore m user j := by
  unfold pipelineTop at hr
  have h1 := List.mem_of_mem_take hr
  unfold sortByOverallDesc at h1
  rw [(List.perm_insertionSort byOverallDesc _).mem_iff] at h1
  have h2 := (List.mem_filter.1 h1).1
  obtain ⟨j, hj, rfl⟩ := List.mem_map.1 h2
  exact ⟨j, (List.mem_filter.1 hj).1, rfl⟩

/-- When the encoder raises on every input, `_calculate_semantic_score`
returns the `0.5` default. -/
theorem calcSemanticScore_of_enc_fail (m : Matcher) (u : UserProfile)
    (j : Job) (henc : ∀ t, m.enc t = none) :
    calcSemanticScore m u j = 1/2 := by
  unfold calcSemanticScore
  rw [henc, henc]

/-- Claim C8 (counterexample): with user `1` present, no active jobs, and an
encoder that raises on every input, the run completes normally (returning
`[]`), yet the user's previously stored match row for job `99` is deleted:
the `matches` table goes from `[rec99]` to `[]`, so the prior MatchRecord
set does not survive an encoder failure. -/
theorem c8_encoder_failure_cex :
    rec99 ∈ dbPrior.matchesTbl ∧
    (matchUserToJobs mFail dbPrior 1 50).1 = [] ∧
    (matchUserToJobs mFail dbPrior 1 50).2.matchesTbl = [] := by
  exact ⟨List.mem_singleton.2 rfl, rfl, rfl⟩

/-- Claim C8 (amended): a profile-encoding failure is not fatal and does not
preserve the prior state: the run completes with every scored record's
semantic sub-score silently defaulted to `0.5`, and the user's persisted
rows are replaced wholesale — the old rows are deleted and exactly the new
top records are inserted. -/
theorem c8_encoder_failure_not_fatal (m : Matcher)
    (henc : ∀ t, m.enc t = none) (db : DB) (uid k : Nat)
    (user : UserProfile)
    (hu : db.profiles.find? (fun p => p.id == uid) = some user) :
    (∀ r ∈ (matchUserToJobs m db uid k).1, r.semantic_score = 1/2) ∧
    (matchUserToJobs m db uid k).2.matchesTbl =
      db.matchesTbl.filter (fun r => r.user_id != uid) ++
        (matchUserToJobs m db uid k).1.map (recOfData uid) := by
  unfold matchUserToJobs
  rw [hu]
  constructor
  · intro r hr
    obtain ⟨j, _, rfl⟩ := mem_pipelineTop m user db.jobs k r hr
    simp only [calcMatchScore]
    exact calcSemanticScore_of_enc_fail m user j henc
  · rfl

/-- Claim C8 (witness): the amended statement instantiated on the concrete
database with a prior match row and the always-failing encoder. -/
theorem c8_encoder_failure_not_fatal_witness :
    dbPrior.profiles.find? (fun p => p.id == 1) = some emptyProfile ∧
    ((∀ r ∈ (matchUserToJobs mFail dbPrior 1 50).1, r.semantic_score = 1/2) ∧
     (matchUserToJobs mFail dbPrior 1 50).2.matchesTbl =
       dbPrior.matchesTbl.filter (fun r => r.user_id != 1) ++
         (matchUserToJobs mFail dbPrior 1 50).1.map (recOfData 1)) :=
  ⟨rfl, c8_encoder_failure_not_fatal mFail (fun _ => rfl) dbPrior 1 50
    emptyProfile rfl⟩

/-! ## Claim C9 -/

/-- Replacing a user's rows twice with the same records equals replacing
them once. -/
theorem storeMatches_idem (uid : Nat) (ms : List MatchData)
    (tbl : List MatchRec) :
    storeMatches uid ms (storeMatches uid ms tbl) = storeMatches uid ms tbl := by
  unfold storeMatches
  rw [List.filter_append]
  have h1 : (ms.map (recOfData uid)).filter (fun r => r.user_id != uid) = [] := by
    rw [List.filter_map]
    have h2 : ((fun r : MatchRec => r.user_id != uid) ∘ recOfData uid) =
        fun _ : MatchData => false := by
      funext d
      simp [recOfData]
    rw [h2]
    simp
  rw [h1, List.append_nil, List.filter_filter]
  simp only [Bool.and_self]

/-- Claim C9: with the matcher (encoder, similarity, weights, thresholds)
and the profile and job tables unchanged, running `match_user_to_jobs` a
second time returns the same list and leaves the same persisted state as
the first run: the pipeline is idempotent. -/
theorem c9_pipeline_idempotent (m : Matcher) (db : DB) (uid k : Nat) :
    matchUserToJobs m (matchUserToJobs m db uid k).2 uid k =
      matchUserToJobs m db uid k := by
  unfold matchUserToJobs
  cases h : db.profiles.find? (fun p => p.id == uid) with
  | none => simp [h]
  | some user => simp [h, storeMatches_idem]

/-! ## Claim C3 -/

/-- A kept search row carries the faiss score unchanged and an id drawn from
the store's `ids` list. -/
theorem searchRow_eq_some (ids : List Nat) (p : ℚ × Int) (r : Nat × ℚ)
    (h : searchRow ids p = some r) : r.2 = p.1 ∧ r.1 ∈ ids := by
  unfold searchRow at h
  by_cases hneg : p.2 < 0
  · rw [if_pos hneg] at h
    exact absurd h (by simp)
  · rw [if_neg hneg] at h
    cases hget : ids[p.2.toNat]? with
    | none => rw [hget] at h; exact absurd h (by simp)
    | some i =>
      rw [hget] at h
      have hr : r = (i, p.1) := by
        simpa using h.symm
      subst hr
      refine ⟨rfl, ?_⟩
      rw [List.getElem?_eq_some] at hget
      obtain ⟨hlt, rfl⟩ := hget
      exact List.getElem_mem hlt

/-- Rows that map to `none` contribute nothing, however often repeated. -/
theorem filterMap_replicate_none {α β : Type} (f : α → Option β) (a : α)
    (hf : f a = none) (n : Nat) :
    List.filterMap f (List.replicate n a) = [] := by
  induction n with
  | zero => rfl
  | succ n ih => rw [List.replicate_succ, List.filterMap_cons, hf, ih]

/-- The id list accumulated by a sequence of `add` calls. -/
theorem buildStore_ids (d : Nat) (ops : List (List (List ℚ) × List Nat)) :
    (buildStore d ops).ids = (ops.map Prod.snd).flatten := by
  suffices h : ∀ (ops : List (List (List ℚ) × List Nat)) (s : FaissStore),
      (ops.foldl (fun s op => s.add op.1 op.2) s).ids =
        s.ids ++ (ops.map Prod.snd).flatten by
    simpa [buildStore, emptyStore] using h ops (emptyStore d)
  intro ops
  induction ops with
  | nil => intro s; simp
  | cons op l ih =>
    intro s
    rw [List.foldl_cons, ih]
    simp [FaissStore.add, List.append_assoc]

/-- Claim C3: for every sequence of `add` calls, query and `k`, `search`
returns at most `k` rows, with scores in non-increasing order, and every
returned id was passed to some earlier `add` call; on a fresh empty store
`search` returns `[]` (total, hence never an error). -/
theorem c3_search_contract (d : Nat) (ops : List (List (List ℚ) × List Nat))
    (q : List ℚ) (k : Nat) :
    ((buildStore d ops).search q k).length ≤ k ∧
    List.Pairwise (fun a b : Nat × ℚ => b.2 ≤ a.2)
      ((buildStore d ops).search q k) ∧
    (∀ r ∈ (buildStore d ops).search q k, ∃ op ∈ ops, r.1 ∈ op.2) ∧
    (emptyStore d).search q k = [] := by
  have hempty : (emptyStore d).search q k = [] := rfl
  by_cases hv : (buildStore d ops).vectors.length = 0
  · unfold FaissStore.search
    rw [if_pos hv]
    exact ⟨by simp, by simp, by simp, hempty⟩
  · have hsearch : (buildStore d ops).search q k =
        List.filterMap (searchRow (buildStore d ops).ids)
          ((sortScoresDesc (scorePairs (buildStore d ops).vectors q)).take k) := by
      unfold FaissStore.search faissTopK
      rw [if_neg hv, List.filterMap_append,
        filterMap_replicate_none _ _ (by rfl), List.append_nil]
    have hsorted : List.Pairwise byScoreDesc
        ((sortScoresDesc (scorePairs (buildStore d ops).vectors q)).take k) :=
      List.Pairwise.sublist (List.take_sublist _ _)
        (List.sorted_insertionSort byScoreDesc _)
    refine ⟨?_, ?_, ?_, hempty⟩
    · rw [hsearch]
      calc (List.filterMap _ _).length
          ≤ ((sortScoresDesc (scorePairs (buildStore d ops).vectors q)).take
              k).length := List.length_filterMap_le _ _
        _ ≤ k := by rw [List.length_take]; exact min_le_left _ _
    · rw [hsearch, List.pairwise_filterMap]
      refine hsorted.imp ?_
      intro p p' hpp' r hr r' hr'
      rw [Option.mem_def] at hr hr'
      have h1 := (searchRow_eq_some _ _ _ hr).1
      have h2 := (searchRow_eq_some _ _ _ hr').1
      rw [h1, h2]
      exact hpp'
    · intro r hr
      rw [hsearch] at hr
      obtain ⟨p, _, hp⟩ := List.mem_filterMap.1 hr
      have hid := (searchRow_eq_some _ _ _ hp).2
      rw [buildStore_ids] at hid
      obtain ⟨l, hl, hrl⟩ := List.mem_flatten.1 hid
      obtain ⟨op, hop, rfl⟩ := List.mem_map.1 hl
      exact ⟨op, hop, hrl⟩
